import Mathlib

/-!
Shallow embedding of the docker-api client's container module
(src/container.ts): the call descriptors each method builds, their
status-code tables, and the success-callback semantics of each
operation, together with theorems checking the request/response
contract the specification describes.
-/

namespace DockerApi

/-- Decoded JSON body describing a container (types/container.ts,
`ContainerData`); the `any`-typed fields are omitted, the rest keep their
source names. -/
structure ContainerData where
  Id : String
  Names : List String := []
  Image : String := ""
  ImageID : String := ""
  Command : String := ""
  Created : Nat := 0
  State : String := ""
  Status : String := ""
deriving DecidableEq, Repr

/-- Decoded JSON body of an exec create/inspect response; the client reads
only its `Id` field, the remaining keys are kept abstractly. -/
structure ExecData where
  Id : String
  rest : List (String × String) := []
deriving DecidableEq, Repr

/-- HTTP method of a call descriptor. -/
inductive Method
  | GET
  | POST
  | PUT
  | DELETE
  | HEAD
deriving DecidableEq, Repr

/-- One entry of a descriptor's `statusCodes` table: `true` in the source
means the code is accepted; a string is the error reason for that code. -/
inductive StatusOutcome
  | accept
  | reason (msg : String)
deriving DecidableEq, Repr

/-- A `statusCodes` table: association list from HTTP status code to outcome. -/
abbrev StatusTable := List (Nat × StatusOutcome)

/-- Query-option record (the untyped `opts` bags of the source), restricted
to the fields the embedded operations actually read; `rest` stands for every
other key the caller may have put in the bag. -/
structure Opts where
  stream : Bool := false
  path : Option String := none
  container : Option String := none
  rest : List (String × String) := []
deriving DecidableEq, Repr

/-- REST call descriptor handed to `modem.dial`. An attached input byte
stream (the `file` field of `ContainerFs.put`) is abstracted to a flag. -/
structure Call where
  path : String
  method : Method
  options : Opts
  isStream : Bool := false
  hasFile : Bool := false
  statusCodes : StatusTable
deriving DecidableEq, Repr

/-- Container handle: identifier plus the cached snapshot (`data`, unset at
construction) and `Warnings` (initialised to `[]`). The modem reference and
the derived `fs` / `exec` helper objects carry no state of their own and are
left implicit. -/
structure Container where
  id : String
  data : Option ContainerData := none
  Warnings : List String := []
deriving DecidableEq, Repr

/-- Exec handle: owning container's identifier, exec identifier, and the
snapshot, which starts out empty (`data: Object = {}` in the source). -/
structure Exec where
  containerId : String
  id : String
  data : Option ExecData := none
deriving DecidableEq, Repr

/-- Image handle. Modelled from the spec: src/image.ts is not among the
sources; per the spec every resource handle wraps an identifier set at
construction, which is all `Container.commit` uses of it. -/
structure Image where
  id : String
deriving DecidableEq, Repr

/-- Whether a table entry accepts its status code. -/
def StatusOutcome.isAccept : StatusOutcome → Bool
  | .accept => true
  | .reason _ => false

/-- Status codes a table marks as accepted, in table order. -/
def acceptedCodes (t : StatusTable) : List Nat :=
  (t.filter fun p => p.2.isAccept).map fun p => p.1

/-- Status codes a table maps to an error reason, in table order. -/
def errorCodes (t : StatusTable) : List Nat :=
  (t.filter fun p => !p.2.isAccept).map fun p => p.1

/-- Look a status code up in a table (`none` when the code is absent). -/
def tableLookup (t : StatusTable) (code : Nat) : Option StatusOutcome :=
  (t.find? fun p => p.1 == code).map fun p => p.2

/-- JavaScript template-literal interpolation of a possibly-absent string
field: a missing field prints as the literal text `undefined`. -/
def jsInterp : Option String → String
  | some s => s
  | none => "undefined"

/-- `beginsWith p l` is true when `p` is an initial segment of `l`. -/
def beginsWith : List Char → List Char → Bool
  | [], _ => true
  | _ :: _, [] => false
  | p :: ps, c :: cs => p == c && beginsWith ps cs

/-- Replace the first occurrence of `pat` in the list by `repl`, leaving the
list unchanged when `pat` never occurs — the semantics of JavaScript
`String.prototype.replace` with a string pattern. -/
def replaceFirstList (pat repl : List Char) : List Char → List Char
  | [] => []
  | c :: cs =>
    if beginsWith pat (c :: cs) then repl ++ (c :: cs).drop pat.length
    else c :: replaceFirstList pat repl cs

/-- JavaScript `s.replace(pat, repl)` with a string pattern: first
occurrence only. -/
def jsReplaceFirst (s pat repl : String) : String :=
  ⟨replaceFirstList pat.data repl.data s.data⟩

/-- Transport errors are carried opaquely as strings. -/
abbrev Err := String

/-- The transport ("modem") as the two cited error-path operations observe
it: each dial of a descriptor either fails with an error or succeeds (the
success payload of `start` and `delete` is ignored by their callbacks). -/
abbrev Modem := Call → Except Err Unit

/-- Descriptor built by `Container.start` (container.ts 536-546). -/
def startCall (id : String) (opts : Opts) : Call :=
  { path := "/containers/" ++ id ++ "/start?"
    method := .POST
    options := opts
    statusCodes := [(204, .accept), (304, .accept),
      (404, .reason "no such container"), (500, .reason "server error")] }

/-- Descriptor built by `Container.stop` (container.ts 563-573). -/
def stopCall (id : String) (opts : Opts) : Call :=
  { path := "/containers/" ++ id ++ "/stop?"
    method := .POST
    options := opts
    statusCodes := [(204, .accept), (304, .accept),
      (404, .reason "no such container"), (500, .reason "server error")] }

/-- Descriptor built by `Container.restart` (container.ts 590-599). -/
def restartCall (id : String) (opts : Opts) : Call :=
  { path := "/containers/" ++ id ++ "/restart?"
    method := .POST
    options := opts
    statusCodes := [(204, .accept),
      (404, .reason "no such container"), (500, .reason "server error")] }

/-- Descriptor built by `Container.kill` (container.ts 616-625). -/
def killCall (id : String) (opts : Opts) : Call :=
  { path := "/containers/" ++ id ++ "/kill?"
    method := .POST
    options := opts
    statusCodes := [(204, .accept),
      (404, .reason "no such container"), (500, .reason "server error")] }

/-- Descriptor built by `Container.delete` (container.ts 831-841). -/
def deleteCall (id : String) (opts : Opts) : Call :=
  { path := "/containers/" ++ id ++ "?"
    method := .DELETE
    options := opts
    statusCodes := [(204, .accept), (400, .reason "bad request"),
      (404, .reason "no such container"), (500, .reason "server error")] }

/-- Descriptor built by `Container.export` (container.ts 447-457): the
stream flag of the dial is `!!opts.stream`. -/
def exportCall (id : String) (opts : Opts) : Call :=
  { path := "/containers/" ++ id ++ "/export?"
    method := .GET
    options := opts
    isStream := opts.stream
    statusCodes := [(200, .accept),
      (404, .reason "no such container"), (500, .reason "server error")] }

/-- Descriptor built by `ContainerFs.info` (container.ts 230-240). -/
def fsInfoCall (id : String) (opts : Opts) : Call :=
  { path := "/containers/" ++ id ++ "/archive?"
    method := .HEAD
    options := opts
    isStream := true
    statusCodes := [(200, .accept),
      (404, .reason "bad request"), (500, .reason "server error")] }

/-- Descriptor built by `ContainerFs.get` (container.ts 257-268): the
caller's `opts.path` is interpolated verbatim into the request path. -/
def fsGetCall (id : String) (opts : Opts) : Call :=
  { path := "/containers/" ++ id ++ "/archive?path=" ++ jsInterp opts.path ++ "&"
    method := .GET
    options := opts
    isStream := true
    statusCodes := [(200, .accept), (400, .reason "bad request"),
      (404, .reason "no such container"), (500, .reason "server error")] }

/-- Descriptor built by `ContainerFs.put` (container.ts 285-298); the
attached input byte stream is abstracted to the `hasFile` flag. -/
def fsPutCall (id : String) (opts : Opts) : Call :=
  { path := "/containers/" ++ id ++ "/archive?"
    method := .PUT
    options := opts
    isStream := true
    hasFile := true
    statusCodes := [(200, .accept), (400, .reason "bad request"),
      (403, .reason "permission denied"),
      (404, .reason "no such container"), (500, .reason "server error")] }

/-- `Container.commit` (container.ts 857-869): first the caller-supplied
options record itself is mutated (`opts.container = this.id`, overwriting
any prior value), then the descriptor is built around that same record.
Returns the record as left behind for the caller, paired with the
descriptor. -/
def Container.commitCallOf (self : Container) (opts : Opts) : Opts × Call :=
  let opts := { opts with container := some self.id }
  (opts,
    { path := "/commit?"
      method := .POST
      options := opts
      statusCodes := [(201, .accept),
        (404, .reason "no such container"), (500, .reason "server error")] })

/-- Decoded body of a successful commit response; the client reads `Id`. -/
structure CommitResp where
  Id : String
deriving DecidableEq, Repr

/-- Success callback of `Container.commit` (container.ts 871-876):
`new Image(this.modem, res.Id.replace('sha256:', ''))`. -/
def commitResolve (res : CommitResp) : Image :=
  { id := jsReplaceFirst res.Id "sha256:" "" }

/-- Success callback of the container manager's `list`
(container.ts 914-925): one fresh handle per decoded element, with the
element's `Id` as identifier and the element itself as snapshot, in the
order the array came in. -/
def listResolve (confs : List ContainerData) : List Container :=
  confs.map fun conf => { id := conf.Id, data := some conf }

/-- `Container.start` as a whole (container.ts 535-554): build the
descriptor, dial it once, reject with the transport's error or resolve with
`this`. The second component records every dial performed. -/
def Container.startOp (self : Container) (opts : Opts) (m : Modem) :
    Except Err Container × List Call :=
  match m (startCall self.id opts) with
  | .error e => (.error e, [startCall self.id opts])
  | .ok _ => (.ok self, [startCall self.id opts])

/-- `Container.delete` as a whole (container.ts 830-849): build the
descriptor, dial it once, reject with the transport's error or resolve with
`null`. The second component records every dial performed. -/
def Container.deleteOp (self : Container) (opts : Opts) (m : Modem) :
    Except Err Unit × List Call :=
  match m (deleteCall self.id opts) with
  | .error e => (.error e, [deleteCall self.id opts])
  | .ok _ => (.ok (), [deleteCall self.id opts])

/-- The container manager's `get` (container.ts 892-894):
`new Container(this.modem, id)` — pure construction, and the dial log
(second component) is empty. -/
def ContainerManager.get (id : String) : Container × List Call :=
  ({ id := id }, [])

/-- `ExecManager.get` (container.ts 171-173):
`new Exec(this.modem, this.container, id)` — pure construction, empty dial
log. -/
def ExecManager.get (containerId : String) (id : String) : Exec × List Call :=
  ({ containerId := containerId, id := id }, [])

/-- Success callbacks of the seven state-transition operations that resolve
with `this` unchanged: `start` (551), `stop` (578), `restart` (604),
`kill` (630), `rename` (687), `pause` (712), `unpause` (737). -/
def Container.startResolve (self : Container) : Container := self

/-- `Container.stop` success callback: `resolve(this)`. -/
def Container.stopResolve (self : Container) : Container := self

/-- `Container.restart` success callback: `resolve(this)`. -/
def Container.restartResolve (self : Container) : Container := self

/-- `Container.kill` success callback: `resolve(this)`. -/
def Container.killResolve (self : Container) : Container := self

/-- `Container.rename` success callback: `resolve(this)`. -/
def Container.renameResolve (self : Container) : Container := self

/-- `Container.pause` success callback: `resolve(this)`. -/
def Container.pauseResolve (self : Container) : Container := self

/-- `Container.unpause` success callback: `resolve(this)`. -/
def Container.unpauseResolve (self : Container) : Container := self

/-- `Container.status` callback on a decoded body (container.ts 351-358):
`const container = new Container(this.modem, this.id); container.data =
conf; resolve(container)`. Result: the invoked handle after the call (the
callback never assigns to `this`) paired with the resolved handle. -/
def Container.statusResolve (self : Container) (conf : ContainerData) :
    Container × Container :=
  let container : Container := { id := self.id }
  let container := { container with data := some conf }
  (self, container)

/-- `Container.update` callback on the daemon's warnings array
(container.ts 655-662): `const container = new Container(this.modem,
this.id); container.Warnings = warnings; resolve(container)`. The invoked
handle after the call paired with the resolved handle. -/
def Container.updateResolve (self : Container) (warnings : List String) :
    Container × Container :=
  let container : Container := { id := self.id }
  let container := { container with Warnings := warnings }
  (self, container)

/-- `Exec.create` callback on a decoded body (container.ts 53-60):
`const exec = new Exec(this.modem, this.container, conf.Id); exec.data =
conf; resolve(exec)`. The invoked handle after the call paired with the
resolved handle. -/
def Exec.createResolve (self : Exec) (conf : ExecData) : Exec × Exec :=
  let exec : Exec := { containerId := self.containerId, id := conf.Id }
  let exec := { exec with data := some conf }
  (self, exec)

/-- What `Container.export` resolves with. -/
inductive ExportOutcome
  | live (chunks : List String)
  | buffered (s : String)
deriving DecidableEq, Repr

/-- The transport's possible payloads for the export dial: the buffered
decoded body when the descriptor's stream flag is off, or the live stream
(as its eventual chunks) when it is on. -/
structure ExportModem where
  bufferedBody : String
  streamChunks : List String
deriving DecidableEq, Repr

/-- `Container.export` callback (container.ts 459-473): when `opts.stream`
is falsy the dial was made with the stream flag off, and the buffered
payload is resolved directly; when `opts.stream` is truthy the payload is a
live stream, whose chunks the callback stringifies, collects, and joins
before resolving (`res.join('')`). -/
def Container.exportResolve (opts : Opts) (em : ExportModem) : ExportOutcome :=
  if !opts.stream then .buffered em.bufferedBody
  else .buffered (String.join em.streamChunks)

/-- A sample decoded container body, used by the concrete instantiations. -/
def dEx : ContainerData := { Id := "c1" }

/-- A transport whose every dial fails with the same connection error. -/
def failingModem : Modem := fun _ => .error "socket hang up"

/-! ## Helper lemmas -/

theorem beginsWith_self_append (p t : List Char) :
    beginsWith p (p ++ t) = true := by
  induction p with
  | nil => rfl
  | cons c cs ih => simp [beginsWith, ih]

theorem drop_length_self_append (p t : List Char) :
    (p ++ t).drop p.length = t := by
  induction p with
  | nil => rfl
  | cons c cs ih => simp [ih]

theorem replaceFirstList_self_append (c : Char) (p r t : List Char) :
    replaceFirstList (c :: p) r ((c :: p) ++ t) = r ++ t := by
  simp [replaceFirstList, beginsWith, beginsWith_self_append,
    drop_length_self_append]

theorem strAppend_assoc (a b c : String) : a ++ b ++ c = a ++ (b ++ c) := by
  obtain ⟨a⟩ := a
  obtain ⟨b⟩ := b
  obtain ⟨c⟩ := c
  show String.mk (a ++ b ++ c) = String.mk (a ++ (b ++ c))
  rw [List.append_assoc]

/-! ## Claim theorems -/

/-- Claim C1, counterexample: with `opts.stream` set, `export` does not
resolve with the live stream itself — at stream chunks `["a", "b"]` it
resolves with a buffered string, not with the stream. -/
theorem export_stream_request_cex :
    Container.exportResolve { stream := true } ⟨"BUF", ["a", "b"]⟩ ≠
      ExportOutcome.live ["a", "b"] := by
  decide

/-- Claim C1, amended: `export` dials with the stream flag equal to
`opts.stream`; when `opts.stream` is unset it resolves directly with the
transport's buffered payload, and when `opts.stream` is set it consumes the
live stream and resolves with the concatenation of its chunks as one
string — never with the stream itself. -/
theorem export_modes_amended (id : String) (opts : Opts) (em : ExportModem) :
    (exportCall id opts).isStream = opts.stream ∧
    (opts.stream = false →
      Container.exportResolve opts em = .buffered em.bufferedBody) ∧
    (opts.stream = true →
      Container.exportResolve opts em =
        .buffered (String.join em.streamChunks)) := by
  refine ⟨rfl, fun h => ?_, fun h => ?_⟩ <;>
    simp [Container.exportResolve, h]

/-- Claim C1, witness: both modes evaluated at a concrete transport. -/
theorem export_modes_amended_witness :
    Container.exportResolve {} ⟨"BUF", ["a", "b"]⟩ =
      ExportOutcome.buffered "BUF" ∧
    Container.exportResolve { stream := true } ⟨"BUF", ["a", "b"]⟩ =
      ExportOutcome.buffered "ab" :=
  ⟨(export_modes_amended "c1" {} ⟨"BUF", ["a", "b"]⟩).2.1 rfl,
   ((export_modes_amended "c1" { stream := true } ⟨"BUF", ["a", "b"]⟩).2.2
      rfl).trans (by decide)⟩

/-- Claim C2, counterexample: the archive status-code tables are not all
complete — `info` has no entry for 400 nor for 403, and `get` has no entry
for 403. -/
theorem archive_table_gaps_cex :
    tableLookup (fsInfoCall "c1" {}).statusCodes 400 = none ∧
    tableLookup (fsInfoCall "c1" {}).statusCodes 403 = none ∧
    tableLookup (fsGetCall "c1" {}).statusCodes 403 = none := by
  decide

/-- Claim C2, amended: all three archive operations target
`/containers/\x7bid\x7d/archive` and accept exactly 200; `put` maps all of
400, 403, 404, 500 to error reasons, but `get` maps only 400, 404, 500
(no entry for 403) and `info` maps only 404 and 500 (no entries for 400 or
403). -/
theorem archive_tables_amended (id : String) (opts : Opts) :
    (fsInfoCall id opts).method = .HEAD ∧
    (fsInfoCall id opts).path = "/containers/" ++ id ++ "/archive?" ∧
    acceptedCodes (fsInfoCall id opts).statusCodes = [200] ∧
    errorCodes (fsInfoCall id opts).statusCodes = [404, 500] ∧
    (fsGetCall id opts).method = .GET ∧
    acceptedCodes (fsGetCall id opts).statusCodes = [200] ∧
    errorCodes (fsGetCall id opts).statusCodes = [400, 404, 500] ∧
    (fsPutCall id opts).method = .PUT ∧
    (fsPutCall id opts).path = "/containers/" ++ id ++ "/archive?" ∧
    acceptedCodes (fsPutCall id opts).statusCodes = [200] ∧
    errorCodes (fsPutCall id opts).statusCodes = [400, 403, 404, 500] :=
  ⟨rfl, rfl, rfl, rfl, rfl, rfl, rfl, rfl, rfl, rfl, rfl⟩

/-- Claim C3: `list` resolves with exactly one handle per decoded element,
in the daemon's order: at every index the handle's identifier is the
element's `Id` and the handle's snapshot is the element itself. -/
theorem list_preserves_order (confs : List ContainerData) :
    (listResolve confs).length = confs.length ∧
    ∀ i : Nat,
      ((listResolve confs)[i]?).map Container.id =
        (confs[i]?).map ContainerData.Id ∧
      ((listResolve confs)[i]?).map Container.data =
        (confs[i]?).map some := by
  refine ⟨by simp [listResolve], fun i => ?_⟩
  cases h : confs[i]? <;> simp [listResolve, List.getElem?_map, h]

/-- Claim C4: `start` and `delete` dial the transport exactly once, and
when that single dial reports an error the operation's result is exactly
that error — no success value, no second dial. -/
theorem error_rejects_single_dial (self : Container) (opts : Opts)
    (m : Modem) (e : Err) :
    (Container.startOp self opts m).2 = [startCall self.id opts] ∧
    (Container.deleteOp self opts m).2 = [deleteCall self.id opts] ∧
    (m (startCall self.id opts) = .error e →
      (Container.startOp self opts m).1 = .error e) ∧
    (m (deleteCall self.id opts) = .error e →
      (Container.deleteOp self opts m).1 = .error e) := by
  refine ⟨?_, ?_, fun h => ?_, fun h => ?_⟩
  · cases h : m (startCall self.id opts) <;> simp [Container.startOp, h]
  · cases h : m (deleteCall self.id opts) <;> simp [Container.deleteOp, h]
  · simp [Container.startOp, h]
  · simp [Container.deleteOp, h]

/-- Claim C4, witness: both operations against an always-failing transport. -/
theorem error_rejects_single_dial_witness :
    (Container.startOp { id := "c1" } {} failingModem).1 =
      Except.error "socket hang up" ∧
    (Container.deleteOp { id := "c1" } {} failingModem).1 =
      Except.error "socket hang up" :=
  ⟨(error_rejects_single_dial { id := "c1" } {} failingModem
      "socket hang up").2.2.1 rfl,
   (error_rejects_single_dial { id := "c1" } {} failingModem
      "socket hang up").2.2.2 rfl⟩

/-- Claim C5, counterexample: `update` does not keep every non-warning
field — invoked on a handle whose snapshot is set, it resolves with a fresh
handle whose snapshot is unset, so a field other than `Warnings` changed. -/
theorem update_drops_snapshot_cex :
    (Container.updateResolve { id := "c1", data := some dEx } []).2.data ≠
      (Container.mk "c1" (some dEx) []).data := by
  decide

/-- Claim C5, amended: start, stop, restart, kill, pause, unpause and
rename resolve with the same handle unchanged; `update` resolves with a
freshly constructed handle sharing the identifier, carrying the
daemon-returned warnings, but with the snapshot left unset rather than
carried over. -/
theorem transition_resolutions_amended (self : Container) (ws : List String) :
    Container.startResolve self = self ∧
    Container.stopResolve self = self ∧
    Container.restartResolve self = self ∧
    Container.killResolve self = self ∧
    Container.pauseResolve self = self ∧
    Container.unpauseResolve self = self ∧
    Container.renameResolve self = self ∧
    (Container.updateResolve self ws).2.id = self.id ∧
    (Container.updateResolve self ws).2.Warnings = ws ∧
    (Container.updateResolve self ws).2.data = none :=
  ⟨rfl, rfl, rfl, rfl, rfl, rfl, rfl, rfl, rfl, rfl⟩

/-- Claim C6: the container manager's `get` and `ExecManager.get` perform
no transport call (empty dial log) and return a handle whose identifier is
the given `id` and whose snapshot is unset. -/
theorem get_is_local (cid id : String) :
    (ContainerManager.get id).2 = [] ∧
    (ContainerManager.get id).1.id = id ∧
    (ContainerManager.get id).1.data = none ∧
    (ExecManager.get cid id).2 = [] ∧
    (ExecManager.get cid id).1.id = id ∧
    (ExecManager.get cid id).1.data = none :=
  ⟨rfl, rfl, rfl, rfl, rfl, rfl⟩

/-- Claim C7: `start` and `stop` accept exactly 204 and 304, `restart` and
`kill` accept exactly 204; all four map exactly 404 and 500 to error
reasons, use POST, and target `/containers/\x7bid\x7d/\x7bverb\x7d`. -/
theorem lifecycle_status_tables (id : String) (opts : Opts) :
    acceptedCodes (startCall id opts).statusCodes = [204, 304] ∧
    errorCodes (startCall id opts).statusCodes = [404, 500] ∧
    (startCall id opts).method = .POST ∧
    (startCall id opts).path = "/containers/" ++ id ++ "/start?" ∧
    acceptedCodes (stopCall id opts).statusCodes = [204, 304] ∧
    errorCodes (stopCall id opts).statusCodes = [404, 500] ∧
    (stopCall id opts).method = .POST ∧
    (stopCall id opts).path = "/containers/" ++ id ++ "/stop?" ∧
    acceptedCodes (restartCall id opts).statusCodes = [204] ∧
    errorCodes (restartCall id opts).statusCodes = [404, 500] ∧
    (restartCall id opts).method = .POST ∧
    (restartCall id opts).path = "/containers/" ++ id ++ "/restart?" ∧
    acceptedCodes (killCall id opts).statusCodes = [204] ∧
    errorCodes (killCall id opts).statusCodes = [404, 500] ∧
    (killCall id opts).method = .POST ∧
    (killCall id opts).path = "/containers/" ++ id ++ "/kill?" :=
  ⟨rfl, rfl, rfl, rfl, rfl, rfl, rfl, rfl, rfl, rfl, rfl, rfl, rfl, rfl,
   rfl, rfl⟩

/-- Claim C8: `commit` overwrites the caller-supplied options record's
`container` field with the handle's identifier, passes that same record as
the descriptor's query options, and on success resolves with an `Image`
whose identifier is the daemon-returned `Id` with the first occurrence of
`sha256:` removed. -/
theorem commit_opts_and_sha_strip (self : Container) (opts : Opts)
    (t : String) :
    (Container.commitCallOf self opts).1.container = some self.id ∧
    (Container.commitCallOf self opts).2.options =
      (Container.commitCallOf self opts).1 ∧
    (commitResolve ⟨"sha256:" ++ t⟩).id = t := by
  refine ⟨rfl, rfl, ?_⟩
  show jsReplaceFirst ("sha256:" ++ t) "sha256:" "" = t
  obtain ⟨td⟩ := t
  show String.mk
    (replaceFirstList "sha256:".data [] ("sha256:".data ++ td)) = ⟨td⟩
  have h : "sha256:".data = 's' :: "ha256:".data := rfl
  rw [h, replaceFirstList_self_append]
  simp

/-- Claim C9: the operations that carry back a decoded representation
(`status`, `update`, `exec.create`) leave the invoked handle untouched and
attach the representation only to a freshly constructed handle sharing the
identifier. -/
theorem handles_never_mutated (self : Container) (conf : ContainerData)
    (ws : List String) (ex : Exec) (econf : ExecData) :
    (Container.statusResolve self conf).1 = self ∧
    (Container.statusResolve self conf).2 =
      { id := self.id, data := some conf } ∧
    (Container.updateResolve self ws).1 = self ∧
    (Container.updateResolve self ws).2 =
      { id := self.id, Warnings := ws } ∧
    (Exec.createResolve ex econf).1 = ex ∧
    (Exec.createResolve ex econf).2 =
      { containerId := ex.containerId, id := econf.Id,
        data := some econf } :=
  ⟨rfl, rfl, rfl, rfl, rfl, rfl⟩

/-- Claim C10: `ContainerFs.get` interpolates `opts.path` verbatim into the
request path, passes the same options record as query options, and when the
`path` field is absent the request path carries the literal text
`path=undefined`. -/
theorem fs_get_path_interpolated (id : String) (opts : Opts) :
    (fsGetCall id opts).path =
      "/containers/" ++ id ++ "/archive?path=" ++ jsInterp opts.path ++ "&" ∧
    (fsGetCall id opts).options = opts ∧
    (opts.path = none →
      (fsGetCall id opts).path =
        "/containers/" ++ id ++ "/archive?path=undefined&") := by
  refine ⟨rfl, rfl, fun h => ?_⟩
  show "/containers/" ++ id ++ "/archive?path=" ++ jsInterp opts.path ++ "&" =
    "/containers/" ++ id ++ "/archive?path=undefined&"
  rw [h]
  rw [strAppend_assoc, strAppend_assoc]
  rfl

/-- Claim C10, witness: with no `path` option the interpolated request path
is evaluated concretely. -/
theorem fs_get_path_interpolated_witness :
    (fsGetCall "c1" {}).path = "/containers/c1/archive?path=undefined&" :=
  ((fs_get_path_interpolated "c1" {}).2.2 rfl).trans (by decide)

end DockerApi
